import Mathlib

/-!
Shallow embedding of the logo-scraper core (whrit/logo_scraper) in Lean 4.

The definitions below are translated from the Python sources:
  - src/logo_bot/utils/image.py   (URL heuristics)
  - src/logo_bot/utils/qa.py      (quality assurance, comparison, selection)
  - src/logo_bot/utils/cache.py   (extraction-record cache)
  - src/logo_bot/extractors/base.py          (orchestrator)
  - src/logo_bot/extractors/beautifulsoup.py (heuristic extraction)

Strings model Python strings restricted to the ASCII fragment the program
manipulates; byte-level reads of ASCII files are modelled by character
strings.  String primitives are re-implemented on `List Char` by structural
recursion so that every definition evaluates inside the kernel.  Definitions
named after the source functions keep the source semantics; definitions whose
name starts with `spec` model the specification text only, to be compared
against the source models.
-/

namespace LogoScraper

/-- ASCII lower-casing of one character, Python str.lower() per character. -/
def asciiLower (c : Char) : Char :=
  if 65 ≤ c.toNat && c.toNat ≤ 90 then Char.ofNat (c.toNat + 32) else c

/-- Python str.lower() (ASCII fragment). -/
def lowerStr (s : String) : String := ⟨s.data.map asciiLower⟩

/-- Substring test on character lists: true iff pat occurs contiguously in s.
Models the Python `pat in s` operator. -/
def listHasInfix (pat : List Char) : List Char → Bool
  | [] => pat.isEmpty
  | c :: rest => pat.isPrefixOf (c :: rest) || listHasInfix pat rest

/-- Python `pat in s` on strings. -/
def strIn (pat s : String) : Bool := listHasInfix pat.data s.data

/-- Python `any(t in s for t in pats)`. -/
def anyIn (pats : List String) (s : String) : Bool := pats.any (fun t => strIn t s)

/-- Splitting a character list at a separator character (auxiliary). -/
def splitChAux (sep : Char) (cur : List Char) : List Char → List (List Char)
  | [] => [cur.reverse]
  | c :: rest =>
    if c = sep then cur.reverse :: splitChAux sep [] rest
    else splitChAux sep (c :: cur) rest

/-- Python s.split(sep) for the single-character separators the sources use
(slash, question mark, hash, dot, comma, space). -/
def pySplit (s : String) (sep : Char) : List String :=
  (splitChAux sep [] s.data).map (fun l => ⟨l⟩)

/-- Python s.split(sep)[-1]. -/
def lastSplit (s : String) (sep : Char) : String := (pySplit s sep).getLastD ""

/-- Python s.split(sep)[0]. -/
def headSplit (s : String) (sep : Char) : String := (pySplit s sep).headD ""

/-- Python s.startswith(p). -/
def pyStartsWith (s p : String) : Bool := p.data.isPrefixOf s.data

/-- Python s.endswith(p). -/
def pyEndsWith (s p : String) : Bool := p.data.isSuffixOf s.data

/-- Whitespace characters recognised by Python str.strip(). -/
def isPySpace (c : Char) : Bool := c = ' ' || c = '\t' || c = '\n' || c = '\r'

/-- Python s.strip(). -/
def pyStrip (s : String) : String :=
  ⟨((s.data.dropWhile isPySpace).reverse.dropWhile isPySpace).reverse⟩

/-- Python s[:n] on an ASCII string (models reading the first n bytes). -/
def pyTake (s : String) (n : Nat) : String := ⟨s.data.take n⟩

/-- Python s[:-1] (drop the final character). -/
def pyDropLast (s : String) : String := ⟨s.data.dropLast⟩

/-- Digit-string parse, modelling Python int(s) on the plain-digit inputs the
sources feed it (srcset width descriptors); None models ValueError. -/
def parseNatAux : List Char → Option Nat → Option Nat
  | [], acc => acc
  | c :: rest, acc =>
    if c.isDigit then
      parseNatAux rest (some ((acc.getD 0) * 10 + (c.toNat - 48)))
    else none

/-- Python int(s) for nonnegative digit strings (None = ValueError). -/
def pyInt (s : String) : Option Nat := parseNatAux s.data none

/-- Python truthiness of an optional string: None and the empty string are
falsy. -/
def truthy : Option String → Bool
  | none => false
  | some s => s ≠ ""

/-- Python s.lstrip(dot) as used on extensions: removes all leading dots. -/
def lstripDots (s : String) : String := ⟨s.data.dropWhile (fun c => c = '.')⟩

/-- Python os.path.splitext(p)[1]: the extension including the dot, empty when
the basename has no dot or only leading dots. -/
def splitextExt (p : String) : String :=
  let base := lastSplit p '/'
  let parts := pySplit base '.'
  if parts.length ≥ 2 && !(parts.dropLast.all (fun q => q = "")) then
    "." ++ parts.getLastD ""
  else ""

/-! ### image.py: URL heuristics -/

/-- Hero-image indicator substrings (image.py:377-383). -/
def hero_terms : List String :=
  ["hero", "banner", "background", "header-bg", "bg-", "slide",
   "carousel", "header-image", "splash", "cover", "main-image",
   "showcase", "featured", "jumbotron", "slider", "billboard",
   "masthead", "header-photo", "panorama", "headline", "feature-img",
   "header-banner", "hero-image", "main-banner", "bg_"]

/-- Overly generic hero filenames (image.py:395). -/
def generic_names : List String :=
  ["header.jpg", "header.png", "header.svg", "bg.jpg", "bg.png", "bg.svg"]

/-- Known hero asset directory prefixes (image.py:400). -/
def hero_paths : List String :=
  ["/assets/images/header/", "/images/hero/", "/img/banner/", "/assets/banner/"]

/-- image.py is_likely_hero_image. -/
def is_likely_hero_image (url : String) : Bool :=
  if url = "" then false
  else
    let url_lower := lowerStr url
    let filename := lastSplit url_lower '/'
    if anyIn hero_terms filename then true
    else if anyIn hero_terms url_lower then true
    else if anyIn generic_names url_lower then true
    else if anyIn hero_paths url_lower then true
    else false

/-- Icon affix patterns (image.py:423-427). -/
def icon_patterns : List String :=
  ["icon-", "-icon", "ico-", "-ico", "symbol-", "-symbol", "glyph-", "-glyph"]

/-- Named UI-icon tokens (image.py:430-441). -/
def specific_icons : List String :=
  ["arrow", "chevron", "menu", "hamburger", "search", "cart",
   "social", "facebook", "twitter", "instagram", "linkedin",
   "youtube", "pinterest", "tiktok", "snapchat", "whatsapp",
   "phone", "email", "contact", "chat", "message", "comment",
   "user", "profile", "account", "person", "login", "signin",
   "download", "upload", "share", "close", "plus", "minus",
   "star", "heart", "like", "check", "checkmark", "clock",
   "calendar", "time", "date", "location", "map", "pin",
   "settings", "gear", "cog", "edit", "pencil", "delete",
   "trash", "refresh", "sync", "update", "play", "pause"]

/-- image.py is_likely_icon_not_logo. -/
def is_likely_icon_not_logo (url : String) : Bool :=
  if url = "" then false
  else
    let url_lower := lowerStr url
    let filename := lastSplit url_lower '/'
    if anyIn icon_patterns filename then true
    else if anyIn specific_icons filename then true
    else if strIn "feature" url_lower &&
            (strIn "icon" url_lower || strIn "symbol" url_lower) then true
    else false

/-- Valid raster/vector extensions (image.py:38). -/
def valid_extensions : List String :=
  [".jpg", ".jpeg", ".png", ".gif", ".svg", ".webp", ".ico", ".bmp", ".tiff"]

/-- image.py is_valid_image_url.  The content-type probe performed for
extension-less URLs (image.py:44-54) is a network collaborator; it is passed
in as the function `probe` (true iff the HEAD request succeeds with an
`image/*` content type; request errors yield false, the fail-closed default). -/
def is_valid_image_url (probe : String → Bool) (url : String) : Bool :=
  if url = "" then false
  else if pyStartsWith url "data:image/" then true
  else
    let cleaned_url := headSplit (headSplit url '?') '#'
    let ext := lowerStr (splitextExt cleaned_url)
    if valid_extensions.contains ext then true
    else if ext = "" && !(pyStartsWith url "data:") then probe url
    else false

/-! ### Exact rational arithmetic

Python computes the quality scores and similarity values in IEEE floats; the
model uses exact rationals.  Mathlib's `Rat` operations normalise through
`Nat.gcd` and do not reduce inside the kernel, so the model carries its own
unnormalised fraction type with purely structural `Int` arithmetic.  Every
operation below keeps the denominator positive (division normalises the
sign), and every value produced by the models has a positive denominator. -/

structure Q where
  num : Int
  den : Int
deriving Repr, DecidableEq

/-- Embed an integer. -/
def Q.ofInt (n : Int) : Q := ⟨n, 1⟩

/-- Embed a natural number. -/
def Q.ofNat (n : Nat) : Q := ⟨(n : Int), 1⟩

/-- Fraction a / b for integer a, positive integer b. -/
def Q.frac (a : Int) (b : Int) : Q := ⟨a, b⟩

def Q.add (a b : Q) : Q := ⟨a.num * b.den + b.num * a.den, a.den * b.den⟩

def Q.sub (a b : Q) : Q := ⟨a.num * b.den - b.num * a.den, a.den * b.den⟩

def Q.mul (a b : Q) : Q := ⟨a.num * b.num, a.den * b.den⟩

/-- Division; normalises the sign so the denominator stays positive. -/
def Q.div (a b : Q) : Q :=
  if b.num < 0 then ⟨-(a.num * b.den), a.den * (-b.num)⟩
  else ⟨a.num * b.den, a.den * b.num⟩

/-- Boolean a ≤ b (valid for positive denominators). -/
def Q.ble (a b : Q) : Bool := a.num * b.den ≤ b.num * a.den

/-- Boolean a < b (valid for positive denominators). -/
def Q.blt (a b : Q) : Bool := a.num * b.den < b.num * a.den

/-- Boolean value equality of fractions (valid for positive denominators). -/
def Q.beqv (a b : Q) : Bool := a.num * b.den == b.num * a.den

/-- Python min on floats. -/
def Q.qmin (a b : Q) : Q := if Q.ble a b then a else b

/-- Python max on floats. -/
def Q.qmax (a b : Q) : Q := if Q.ble a b then b else a

/-- Propositional a ≤ b. -/
def Q.Le (a b : Q) : Prop := a.num * b.den ≤ b.num * a.den

/-- Propositional a < b. -/
def Q.Lt (a b : Q) : Prop := a.num * b.den < b.num * a.den

/-- Propositional value equality. -/
def Q.Eqv (a b : Q) : Prop := a.num * b.den = b.num * a.den

instance (a b : Q) : Decidable (Q.Le a b) := by unfold Q.Le; infer_instance

instance (a b : Q) : Decidable (Q.Lt a b) := by unfold Q.Lt; infer_instance

instance (a b : Q) : Decidable (Q.Eqv a b) := by unfold Q.Eqv; infer_instance

/-! ### qa.py: format comparison -/

/-- qa.py is_better_format: format priorities svg=3, png=2, jpg=jpeg=1,
gif=0, webp=1.5, unknown=0; format1 is better iff its priority is strictly
higher. -/
def format_priority (f : String) : Q :=
  let fl := lowerStr f
  if fl = "svg" then Q.ofNat 3
  else if fl = "png" then Q.ofNat 2
  else if fl = "jpg" then Q.ofNat 1
  else if fl = "jpeg" then Q.ofNat 1
  else if fl = "gif" then Q.ofNat 0
  else if fl = "webp" then Q.frac 3 2
  else Q.ofNat 0

/-- qa.py is_better_format. -/
def is_better_format (format1 format2 : String) : Bool :=
  Q.blt (format_priority format2) (format_priority format1)

/-! ### qa.py: select_best_logo

select_best_logo (qa.py:416-536) receives `[{path, source}]` dictionaries,
opens each raster file with PIL to read its size, mode and alpha usage, and
computes a composite score.  The model carries that image metadata on the
candidate record (the PIL open is assumed to succeed; the except-branch that
scores an unreadable candidate 0 is not exercised by any claim). -/

structure SelCandidate where
  path : String
  source : String
  width : Nat
  height : Nat
  mode : String            -- PIL mode string, e.g. "RGB" or "RGBA"
  hasAlphaBelow250 : Bool  -- np.any(alpha < 250) on the decoded pixels
deriving Repr, DecidableEq

/-- Composite score of one candidate (qa.py:440-504). -/
def logo_score (c : SelCandidate) : Q :=
  let ext := lstripDots (lowerStr (splitextExt c.path))
  let score :=
    if ext = "svg" then Q.ofNat 30
    else if ext = "png" then Q.ofNat 20
    else if ext = "jpg" || ext = "jpeg" then Q.ofNat 10
    else if ext = "webp" then Q.ofNat 15
    else Q.ofNat 5
  let score :=
    if ext ≠ "svg" then
      let pixels := c.width * c.height
      let score :=
        if pixels > 40000 then
          Q.add score (Q.qmin (Q.div (Q.ofNat pixels) (Q.ofNat 10000)) (Q.ofNat 30))
        else score
      let score :=
        if ext = "png" && c.mode = "RGBA" && c.hasAlphaBelow250 then
          Q.add score (Q.ofNat 15)
        else score
      let aspect := Q.div (Q.ofNat (max c.width c.height)) (Q.ofNat (max 1 (min c.width c.height)))
      if Q.blt aspect (Q.ofNat 3) then
        Q.add score (Q.qmax (Q.ofNat 0) (Q.sub (Q.ofNat 10) (Q.mul (Q.sub aspect (Q.ofNat 1)) (Q.ofNat 5))))
      else
        Q.sub score (Q.qmin (Q.ofNat 10) (Q.sub aspect (Q.ofNat 3)))
    else score
  if c.source = "website" then Q.add score (Q.ofNat 5) else score

/-- Descending stable order used by Python list.sort(key=score, reverse=True):
a comes before b when score b ≤ score a, and ties keep original order. -/
def selOrder (a b : SelCandidate) : Prop := Q.Le (logo_score b) (logo_score a)

instance : DecidableRel selOrder := fun a b =>
  inferInstanceAs (Decidable (Q.Le (logo_score b) (logo_score a)))

/-- qa.py select_best_logo: None on empty input, sole candidate returned
directly, otherwise the highest-scoring candidate after a stable descending
sort (qa.py:426-536). -/
def select_best_logo (logo_candidates : List SelCandidate) : Option String :=
  match logo_candidates with
  | [] => none
  | [c] => some c.path
  | cs => ((List.insertionSort selOrder cs).headD ⟨"", "", 0, 0, "", false⟩).path |> some

/-! ### qa.py: compare_logos

compare_logos (qa.py:335-414) opens two image files, converts them to a
common mode, resizes both to the smaller common dimensions (capped at 300)
and returns 1 − mean(np.abs(arr1 − arr2))/255.  The decoded image is
modelled as a pixel function; np.uint8 subtraction wraps modulo 256, which
`u8sub` reproduces.  PIL's LANCZOS resampling is modelled as nearest-
neighbour sampling; the theorems evaluate the comparison only on constant
images and on identical image pairs, where every resampling kernel produces
the same pixels. -/

inductive PixMode where
  | rgb
  | rgba
deriving Repr, DecidableEq

structure Pix where
  r : Nat
  g : Nat
  b : Nat
  a : Nat
deriving Repr, DecidableEq

structure Img where
  width : Nat
  height : Nat
  mode : PixMode
  px : Nat → Nat → Pix

/-- A raster or vector file on disk as compare_logos sees it: its path and
its decoded pixels (unused when the path names an SVG). -/
structure ImageFile where
  path : String
  img : Img

/-- np.uint8 subtraction followed by np.abs: (a − b) mod 256 for byte
values; np.abs is the identity on unsigned bytes. -/
def u8sub (a b : Nat) : Nat := (a + 256 - b) % 256

/-- Sum of f over the pixel grid w × h. -/
def sumPix (w h : Nat) (f : Nat → Nat → Nat) : Nat :=
  ∑ y ∈ Finset.range h, ∑ x ∈ Finset.range w, f x y

/-- PIL convert('RGBA') when the modes differ (qa.py:358-360): an RGB pixel
gains alpha 255, an RGBA pixel is unchanged. -/
def toRGBA (img : Img) : Img :=
  { img with
    mode := PixMode.rgba,
    px := fun x y =>
      let p := img.px x y
      match img.mode with
      | PixMode.rgb => ⟨p.r, p.g, p.b, 255⟩
      | PixMode.rgba => p }

/-- Nearest-neighbour stand-in for img.resize((tw, th), LANCZOS). -/
def resizePx (img : Img) (tw th : Nat) (x y : Nat) : Pix :=
  img.px (x * img.width / tw) (y * img.height / th)

/-- Path test used by compare_logos (qa.py:349). -/
def isSvgPath (p : String) : Bool := pyEndsWith (lowerStr p) ".svg"

/-- qa.py compare_logos.  Returns None when the common size is under 10
pixels in either dimension (qa.py:372-374); an SVG on either side
short-circuits to 1.0 (qa.py:349-351). -/
def compare_logos (f1 f2 : ImageFile) : Option Q :=
  if isSvgPath f1.path || isSvgPath f2.path then some (Q.ofNat 1)
  else
    let sameMode := f1.img.mode = f2.img.mode
    let i1 := if sameMode then f1.img else toRGBA f1.img
    let i2 := if sameMode then f2.img else toRGBA f2.img
    let target_width := min (min i1.width i2.width) 300
    let target_height := min (min i1.height i2.height) 300
    if target_width < 10 || target_height < 10 then none
    else
      let q1 := resizePx i1 target_width target_height
      let q2 := resizePx i2 target_width target_height
      match i1.mode with
      | PixMode.rgba =>
        let visible := fun x y => decide ((q1 x y).a > 10) && decide ((q2 x y).a > 10)
        let count := sumPix target_width target_height (fun x y => if visible x y then 1 else 0)
        if count = 0 then some (Q.ofNat 0)
        else
          let total := sumPix target_width target_height (fun x y =>
            if visible x y then
              u8sub (q1 x y).r (q2 x y).r + u8sub (q1 x y).g (q2 x y).g +
                u8sub (q1 x y).b (q2 x y).b
            else 0)
          let mae := Q.div (Q.div (Q.ofNat total) (Q.ofNat (3 * count))) (Q.ofNat 255)
          some (Q.sub (Q.ofNat 1) (Q.qmin mae (Q.ofNat 1)))
      | PixMode.rgb =>
        let total := sumPix target_width target_height (fun x y =>
          u8sub (q1 x y).r (q2 x y).r + u8sub (q1 x y).g (q2 x y).g +
            u8sub (q1 x y).b (q2 x y).b)
        let mae := Q.div (Q.div (Q.ofNat total) (Q.ofNat (3 * target_width * target_height))) (Q.ofNat 255)
        some (Q.sub (Q.ofNat 1) (Q.qmin mae (Q.ofNat 1)))

/-- A solid-colour image. -/
def solidImg (w h : Nat) (m : PixMode) (p : Pix) : Img := ⟨w, h, m, fun _ _ => p⟩

/-! ### qa.py: corruption and quality checks

is_corrupted_image (qa.py:8-62) inspects the file on disk: existence, size,
then for `.svg` paths a scan of the first 1024 bytes, and for raster paths
imghdr sniffing plus a PIL verify/load.  The disk file is modelled with its
ASCII content; the raster-only probes (imghdr/PIL decode, whiteness
histogram, size floor) are carried as precomputed fields since no claim
depends on their internals. -/

structure DiskFile where
  path : String
  content : Option String     -- none models a missing file
  rasterOk : Bool             -- imghdr sniff + PIL verify/load succeed (qa.py:44-62)
  whiteOrTransparent : Bool   -- result of is_all_white_or_transparent (qa.py:64-108)
  tooSmall : Bool             -- result of is_too_small (qa.py:110-136)

/-- qa.py is_corrupted_image. -/
def is_corrupted_image (f : DiskFile) : Bool :=
  match f.content with
  | none => true
  | some c =>
    if c = "" then true
    else if pyEndsWith (lowerStr f.path) ".svg" then
      !(strIn "<svg" (pyTake c 1024) || strIn "<?xml" (pyTake c 1024))
    else !f.rasterOk

/-- qa.py check_logo_quality: for `.svg` paths only the corruption check
runs (qa.py:150-155); raster paths run corruption, then whiteness and size
only when not corrupted (qa.py:157-174). -/
def check_logo_quality (f : DiskFile) : Bool × List String :=
  if pyEndsWith (lowerStr f.path) ".svg" then
    let issues := if is_corrupted_image f then ["SVG file is corrupted or invalid"] else []
    (issues.length = 0, issues)
  else
    let issues := if is_corrupted_image f then ["Image is corrupted or not a valid image file"] else []
    let issues :=
      if issues.isEmpty then
        let issues := issues ++ (if f.whiteOrTransparent then ["Image is entirely or almost entirely white/transparent"] else [])
        issues ++ (if f.tooSmall then ["Image is too small to be a useful logo"] else [])
      else issues
    (issues.length = 0, issues)

/-- image.py process_logo_image SVG validity (image.py:477-502): the whole
content must contain both an opening `<svg` and a closing `</svg>` tag
(checked on the raw bytes, then on the UTF-8 decoding — identical on the
ASCII model). -/
def process_logo_image_svg_ok (c : String) : Bool :=
  strIn "<svg" c && strIn "</svg>" c

/-! ### cache.py and base.py: extraction records and the orchestrator

The cache stores one JSON file per URL under a key derived from the URL
(cache.py get_cache_path hashes the normalized URL with MD5; the model keys
records by the URL itself, which is equivalent up to hash collisions).  A
stored record either parses (json.load succeeds) or is corrupt (json.load
raises and get_cached_result returns None). -/

structure CacheRecord where
  website_url : String
  logo_url : Option String   -- absent key models .get returning None
  text_based_logo : Bool     -- absent key models .get(default False)
  timestamp : Int
  method : String
deriving Repr, DecidableEq

inductive RawRecord where
  | valid (r : CacheRecord)
  | corrupt
deriving Repr, DecidableEq

/-- The cache directory: an association list from keys to stored files. -/
abbrev Store := List (String × RawRecord)

/-- Store lookup (os.path.exists + open). -/
def storeGet (s : Store) (k : String) : Option RawRecord :=
  match s with
  | [] => none
  | (k2, v) :: rest => if k2 = k then some v else storeGet rest k

/-- Whole-record replace-on-write (open with mode w). -/
def storePut (s : Store) (k : String) (v : RawRecord) : Store :=
  match s with
  | [] => [(k, v)]
  | (k2, v2) :: rest => if k2 = k then (k, v) :: rest else (k2, v2) :: storePut rest k v

/-- os.remove of a cache file (cache.py clear_cache with a URL). -/
def storeErase (s : Store) (k : String) : Store :=
  match s with
  | [] => []
  | (k2, v2) :: rest => if k2 = k then rest else (k2, v2) :: storeErase rest k

/-- cache.py get_cached_result: the parsed record, or None when the file is
missing or unreadable; the store is never modified (the except branch only
prints). -/
def get_cached_result (s : Store) (url : String) : Option CacheRecord :=
  match storeGet s url with
  | some (RawRecord.valid r) => some r
  | some RawRecord.corrupt => none
  | none => none

/-- cache.py cache_text_based_logo: writes website_url, text_based_logo=True,
timestamp and method; no logo_url key. -/
def cache_text_based_logo (s : Store) (url : String) (now : Int) (method : String) : Store :=
  storePut s url (RawRecord.valid ⟨url, none, true, now, method⟩)

/-- cache.py cache_logo_url. -/
def cache_logo_url (s : Store) (url logoUrl : String) (now : Int) (method : String) : Store :=
  storePut s url (RawRecord.valid ⟨url, some logoUrl, false, now, method⟩)

/-- cache.py is_cache_valid: younger than 7 days. -/
def is_cache_valid (r : CacheRecord) (now : Int) : Bool :=
  now - r.timestamp < 7 * 24 * 60 * 60

/-- cache.py clear_cache for one URL. -/
def clear_cache (s : Store) (url : String) : Store := storeErase s url

/-- config.py TEXT_BASED_LOGO sentinel. -/
def TEXT_BASED_LOGO : String := "TEXT_BASED_LOGO"

/-- What _perform_extraction returned: a string (possibly the
TEXT_BASED_LOGO sentinel), a list of URLs (the Google extractor), or None. -/
inductive PerformResult where
  | strR (s : String)
  | listR (us : List String)
  | noneR
deriving Repr, DecidableEq

/-- Outcome of extract_logo: the TEXT_BASED_LOGO sentinel, the accepted logo
URL handed to the download-and-process collaborator, or None. -/
inductive ExtractOutcome where
  | textBased
  | downloaded (logoUrl : String)
  | notFound
deriving Repr, DecidableEq

/-- The acceptance filter applied by extract_logo to an extractor-returned
URL (base.py:81 and base.py:98): truthy, valid image URL, not a hero image,
not an icon-not-logo.  There is no favicon test here. -/
def extract_accepts (probe : String → Bool) (u : String) : Bool :=
  u ≠ "" && is_valid_image_url probe u && !is_likely_hero_image u &&
    !is_likely_icon_not_logo u

/-- First accepted URL of a list (base.py:79-92). -/
def firstAccepted (probe : String → Bool) : List String → Option String
  | [] => none
  | u :: rest => if extract_accepts probe u then some u else firstAccepted probe rest

/-- The post-cache phase of extract_logo (base.py:67-109): run the
extraction, cache a text-based or accepted-URL result, reject everything
else.  The method string cached by _get_method_name is fixed to the
BeautifulSoup extractor, the one the heuristic claims exercise. -/
def extraction_phase (now : Int) (st : Store) (websiteUrl : String)
    (pr : PerformResult) (probe : String → Bool) : ExtractOutcome × Store × Bool :=
  match pr with
  | PerformResult.strR s =>
    if s = TEXT_BASED_LOGO then
      (ExtractOutcome.textBased, cache_text_based_logo st websiteUrl now "beautifulsoup", true)
    else if extract_accepts probe s then
      (ExtractOutcome.downloaded s, cache_logo_url st websiteUrl s now "beautifulsoup", true)
    else (ExtractOutcome.notFound, st, true)
  | PerformResult.listR us =>
    match firstAccepted probe us with
    | some u => (ExtractOutcome.downloaded u, cache_logo_url st websiteUrl u now "beautifulsoup", true)
    | none => (ExtractOutcome.notFound, st, true)
  | PerformResult.noneR => (ExtractOutcome.notFound, st, true)

/-- base.py BaseExtractor.extract_logo (base.py:30-109).  The model takes
the wall-clock time, the cache store, the normalized website URL, the
force_refresh flag, what _perform_extraction would return, and the
content-type probe; it returns the outcome, the updated store, and whether
_perform_extraction was invoked.  The download-and-process step
(base.py:123-173) is a network collaborator; the model records the accepted
URL in the outcome. -/
def extract_logo (now : Int) (store : Store) (websiteUrl : String)
    (forceRefresh : Bool) (pr : PerformResult) (probe : String → Bool) :
    ExtractOutcome × Store × Bool :=
  let cached := if forceRefresh then none else get_cached_result store websiteUrl
  match cached with
  | some r =>
    if r.text_based_logo then (ExtractOutcome.textBased, store, false)
    else
      let afterCache :=
        if truthy r.logo_url && is_cache_valid r now then
          let u := r.logo_url.getD ""
          if is_likely_hero_image u then
            (none, clear_cache store websiteUrl)          -- hero: clear, fall through
          else if is_valid_image_url probe u then
            (some u, store)                               -- trusted: download it
          else
            (none, clear_cache store websiteUrl)          -- invalid: clear, fall through
        else (none, store)                                -- stale or no URL: fall through
      match afterCache with
      | (some u, st) => (ExtractOutcome.downloaded u, st, false)
      | (none, st) => extraction_phase now st websiteUrl pr probe
  | none => extraction_phase now store websiteUrl pr probe

/-! ### url.py: URL utilities -/

/-- Drop the first n characters of a string. -/
def stringDrop (s : String) (n : Nat) : String := ⟨s.data.drop n⟩

/-- url.py normalize_url: prefix https:// when no scheme is present. -/
def normalize_url (url : String) : String :=
  if url ≠ "" && !(pyStartsWith url "http://" || pyStartsWith url "https://") then
    "https://" ++ url
  else url

/-- url.py get_base_url: scheme plus netloc, modelled for http(s) URLs (the
only scheme normalize_url produces). -/
def get_base_url (url : String) : String :=
  let url := normalize_url url
  if pyStartsWith url "https://" then
    "https://" ++ headSplit (stringDrop url 8) '/'
  else
    "http://" ++ headSplit (stringDrop url 7) '/'

/-- The prefix of s up to and including its last slash, empty when s has no
slash. -/
def upToLastSlash (s : String) : String :=
  ⟨(s.data.reverse.dropWhile (fun c => c ≠ '/')).reverse⟩

/-- Python urllib.parse.urljoin for the http(s) base URLs and plain relative
references this program produces (no `.`/`..` segment resolution, which the
sources never rely on). -/
def pyUrljoin (base rel : String) : String :=
  if pyStartsWith rel "http://" || pyStartsWith rel "https://" || pyStartsWith rel "data:" then rel
  else if pyStartsWith rel "//" then
    (if pyStartsWith (normalize_url base) "https://" then "https:" else "http:") ++ rel
  else if pyStartsWith rel "/" then get_base_url base ++ rel
  else
    let b := get_base_url base
    let path := stringDrop base b.length
    if path = "" then b ++ "/" ++ rel
    else b ++ upToLastSlash path ++ rel

/-- url.py make_absolute_url. -/
def make_absolute_url (base_url relative_url : String) : String :=
  if pyStartsWith relative_url "//" then "https:" ++ relative_url
  else if pyStartsWith relative_url "/" then get_base_url base_url ++ relative_url
  else if !(pyStartsWith relative_url "http://" || pyStartsWith relative_url "https://" ||
            pyStartsWith relative_url "data:") then
    pyUrljoin base_url relative_url
  else relative_url

/-- url.py fix_data_uri: strip the spurious https:// prefix from a malformed
data URI (str.replace on the observed leading occurrence). -/
def fix_data_uri (url : String) : String :=
  if pyStartsWith url "https://data:" then "data:" ++ stringDrop url 13 else url

/-! ### DOM model for the BeautifulSoup extractor

A parsed document is a tree of elements with tag name and attributes, plus
text nodes.  BeautifulSoup searches are in document (pre-)order over the
descendants of the searched node; the multi-valued class attribute is the
whitespace-split token list of the HTML attribute. -/

inductive HtmlNode where
  | elem (tag : String) (attrs : List (String × String)) (children : List HtmlNode)
  | text (s : String)

/-- Attribute lookup: tag.get(name). -/
def attrGet (attrs : List (String × String)) (name : String) : Option String :=
  match attrs with
  | [] => none
  | (k, v) :: rest => if k = name then some v else attrGet rest name

/-- BeautifulSoup's multi-valued class attribute: the whitespace-split
tokens; a missing or empty class attribute yields the falsy empty list. -/
def classList (attrs : List (String × String)) : List String :=
  (pySplit ((attrGet attrs "class").getD "") ' ').filter (fun c => c ≠ "")

/-- Python ' '.join(tag.get('class')). -/
def joinClasses (attrs : List (String × String)) : String :=
  String.intercalate " " (classList attrs)

/-- The tag name of a node (text nodes have none). -/
def HtmlNode.tagName : HtmlNode → Option String
  | HtmlNode.elem t _ _ => some t
  | HtmlNode.text _ => none

/-- The attributes of a node. -/
def HtmlNode.nodeAttrs : HtmlNode → List (String × String)
  | HtmlNode.elem _ a _ => a
  | HtmlNode.text _ => []

mutual

/-- All descendants of a node in document order (the node itself excluded,
matching BeautifulSoup's find/find_all). -/
def descendants : HtmlNode → List HtmlNode
  | HtmlNode.text _ => []
  | HtmlNode.elem _ _ cs => descendantsL cs

/-- Descendants of a forest in document order, each root included. -/
def descendantsL : List HtmlNode → List HtmlNode
  | [] => []
  | n :: ns => n :: descendants n ++ descendantsL ns

end

/-- soup.find(pred): first matching descendant element in document order
(text nodes never match an element predicate). -/
def findFirst (p : HtmlNode → Bool) (n : HtmlNode) : Option HtmlNode :=
  (descendants n).filter p |>.head?

/-- soup.find_all(pred). -/
def findAll (p : HtmlNode → Bool) (n : HtmlNode) : List HtmlNode :=
  (descendants n).filter p

/-- Element with the given tag. -/
def tagIs (t : String) (n : HtmlNode) : Bool := n.tagName = some t

/-- Element whose class token list contains the given class (soup.find with
class_='...'). -/
def hasClassToken (c : String) (n : HtmlNode) : Bool :=
  n.tagName.isSome && (classList n.nodeAttrs).contains c

/-- Element with the given attribute present (src=True). -/
def attrPresent (name : String) (n : HtmlNode) : Bool :=
  n.tagName.isSome && (attrGet n.nodeAttrs name).isSome

/-- An ancestor as seen from an img element: tag name and attributes. -/
structure AncInfo where
  tag : String
  attrs : List (String × String)
deriving DecidableEq

/-- An img element together with its ancestor chain, nearest parent first. -/
structure ImgEntry where
  attrs : List (String × String)
  ancestors : List AncInfo
deriving DecidableEq

mutual

/-- Collect every img element of a node's subtree in document order,
carrying the ancestor chain (soup.find_all('img') plus .parents). -/
def imgEntries (anc : List AncInfo) : HtmlNode → List ImgEntry
  | HtmlNode.text _ => []
  | HtmlNode.elem t a cs =>
    (if t = "img" then [⟨a, anc⟩] else []) ++ imgEntriesL (⟨t, a⟩ :: anc) cs

/-- Collect img elements of a forest. -/
def imgEntriesL (anc : List AncInfo) : List HtmlNode → List ImgEntry
  | [] => []
  | n :: ns => imgEntries anc n ++ imgEntriesL anc ns

end

/-- The document root wrapper: BeautifulSoup's [document] object, whose name
appears in .parents chains. -/
def docRoot (top : List HtmlNode) : HtmlNode := HtmlNode.elem "[document]" [] top

/-! ### beautifulsoup.py _find_header_logo (lines 111-322)

The function is modelled for website URLs that do not contain "asigra": the
site-specific branch at beautifulsoup.py:127-166 runs regex extraction over
the raw HTML of that one vendor and is outside the parsed-document model.
Every claim evaluates the model on other URLs. -/

/-- The has_nav_class_or_id tag predicate (beautifulsoup.py:188-198): a
truthy class or id attribute containing "nav" (case-folded). -/
def hasNavClassOrId (n : HtmlNode) : Bool :=
  n.tagName.isSome &&
    ((classList n.nodeAttrs).any (fun v => strIn "nav" (lowerStr v)) ||
     (match attrGet n.nodeAttrs "id" with
      | some v => v ≠ "" && strIn "nav" (lowerStr v)
      | none => false))

/-- A tag whose class token list has a token containing "logo"
(beautifulsoup.py:206). -/
def classHasLogo (n : HtmlNode) : Bool :=
  n.tagName.isSome && (classList n.nodeAttrs).any (fun v => strIn "logo" (lowerStr v))

/-- Span carrying an on-dark/on-light class (beautifulsoup.py:229). -/
def onDarkLight (n : HtmlNode) : Bool :=
  tagIs "span" n && (classList n.nodeAttrs).any (fun v =>
    strIn "on-dark" (lowerStr v) || strIn "on-light" (lowerStr v))

/-- The contains_logo tag predicate (beautifulsoup.py:247-270). -/
def containsLogoPred (n : HtmlNode) : Bool :=
  match n.tagName with
  | none => false
  | some t =>
    if !(t = "img" || t = "svg") then false
    else if t = "img" && !truthy (attrGet n.nodeAttrs "src") then false
    else
      let attrHit :=
        (classList n.nodeAttrs).any (fun v => strIn "logo" (lowerStr v)) ||
        (match attrGet n.nodeAttrs "id" with
         | some v => v ≠ "" && strIn "logo" (lowerStr v)
         | none => false) ||
        (match attrGet n.nodeAttrs "alt" with
         | some v => v ≠ "" && strIn "logo" (lowerStr v)
         | none => false)
      if attrHit then true
      else
        t = "img" &&
          (match attrGet n.nodeAttrs "src" with
           | some v => strIn "logo" (lowerStr v)
           | none => false)

/-- The contains_icon tag predicate (beautifulsoup.py:280-303). -/
def containsIconPred (n : HtmlNode) : Bool :=
  match n.tagName with
  | none => false
  | some t =>
    if !(t = "img" || t = "svg") then false
    else if t = "img" &&
            (match attrGet n.nodeAttrs "src" with
             | some v => v ≠ "" && strIn "favicon" (lowerStr v)
             | none => false) then false
    else if t = "img" && !truthy (attrGet n.nodeAttrs "src") then false
    else
      (classList n.nodeAttrs).any (fun v => strIn "icon" (lowerStr v)) ||
      (match attrGet n.nodeAttrs "id" with
       | some v => v ≠ "" && strIn "icon" (lowerStr v)
       | none => false) ||
      (match attrGet n.nodeAttrs "alt" with
       | some v => v ≠ "" && strIn "icon" (lowerStr v)
       | none => false)

/-- Direct image search inside one container (beautifulsoup.py:213-219):
first descendant img with a src attribute; returned when the src is truthy,
not a favicon, and its absolute form is not a hero image. -/
def containerImgStep (websiteUrl : String) (container : HtmlNode) : Option String :=
  match findFirst (fun n => tagIs "img" n && attrPresent "src" n) container with
  | some img =>
    let src := (attrGet img.nodeAttrs "src").getD ""
    if src ≠ "" && !strIn "favicon" (lowerStr src) then
      let abs := make_absolute_url websiteUrl src
      if !is_likely_hero_image abs then some abs else none
    else none
  | none => none

/-- Outcome of the on-dark/on-light span scan: an immediate return or the
lingering candidate_url local. -/
inductive SpanOut where
  | ret (u : String)
  | cand (c : Option String)

/-- The span/img scan of one container (beautifulsoup.py:229-241): dark
spans and white sources return immediately; other hits overwrite the
candidate_url local. -/
def spanPairsLoop (websiteUrl : String) :
    List (HtmlNode × HtmlNode) → Option String → SpanOut
  | [], cand => SpanOut.cand cand
  | (sp, im) :: rest, cand =>
    let src := (attrGet im.nodeAttrs "src").getD ""
    if (attrGet im.nodeAttrs "src").isSome && src ≠ "" && pyStrip src ≠ "" &&
        !strIn "favicon" (lowerStr src) then
      let abs := make_absolute_url websiteUrl src
      if (classList sp.nodeAttrs).any (fun v => strIn "dark" (lowerStr v)) ||
          strIn "white" (lowerStr src) then
        SpanOut.ret abs
      else spanPairsLoop websiteUrl rest (some abs)
    else spanPairsLoop websiteUrl rest cand

/-- The container loop of _find_header_logo (beautifulsoup.py:212-244).
The candidate_url local persists into the end-of-iteration check
(beautifulsoup.py:243-244), so a set candidate returns at the end of the
container that set it. -/
def containersLoop (websiteUrl : String) (cand : Option String) :
    List HtmlNode → Option String
  | [] => none
  | c :: rest =>
    match containerImgStep websiteUrl c with
    | some u => some u
    | none =>
      -- the inline-svg branch (beautifulsoup.py:222-226) only logs
      let spans := findAll onDarkLight c
      let pairs := spans.flatMap (fun sp =>
        (findAll (fun n => tagIs "img" n && attrPresent "src" n) sp).map (fun im => (sp, im)))
      match spanPairsLoop websiteUrl pairs cand with
      | SpanOut.ret u => some u
      | SpanOut.cand (some u) => some u
      | SpanOut.cand none => containersLoop websiteUrl none rest

/-- Step 5 of _find_header_logo (beautifulsoup.py:312-318): first img whose
src mentions "logo", is not a favicon and is not a hero image. -/
def step5Loop (websiteUrl : String) : List HtmlNode → Option String
  | [] => none
  | n :: rest =>
    let src := (attrGet n.nodeAttrs "src").getD ""
    if src ≠ "" && strIn "logo" (lowerStr src) && !strIn "favicon" (lowerStr src) then
      let abs := make_absolute_url websiteUrl src
      if !is_likely_hero_image abs then some abs else step5Loop websiteUrl rest
    else step5Loop websiteUrl rest

/-- beautifulsoup.py _find_header_logo (lines 111-322, non-asigra path).
Despite its docstring, no branch of the source returns the TEXT_BASED_LOGO
constant: every return is an image URL or None. -/
def find_header_logo (websiteUrl : String) (doc : HtmlNode) : Option String :=
  let header := findFirst (tagIs "header") doc
  let navbar :=
    match findFirst (hasClassToken "navbar") doc with
    | some n => some n
    | none => findFirst (hasClassToken "navbar_component") doc
  let navRelated := findFirst hasNavClassOrId doc
  let logoDiv := findFirst classHasLogo doc
  let logo_containers := header.toList ++ navbar.toList ++ navRelated.toList ++ logoDiv.toList
  match containersLoop websiteUrl none logo_containers with
  | some u => some u
  | none =>
    let step3 :=
      match findFirst containsLogoPred doc with
      | some n =>
        let src := (attrGet n.nodeAttrs "src").getD ""
        if n.tagName = some "img" && src ≠ "" && !strIn "favicon" (lowerStr src) then
          let abs := make_absolute_url websiteUrl src
          if !is_likely_hero_image abs then some abs else none
        else none
      | none => none
    match step3 with
    | some u => some u
    | none =>
      let step4 :=
        match findFirst containsIconPred doc with
        | some n =>
          let src := (attrGet n.nodeAttrs "src").getD ""
          if n.tagName = some "img" && src ≠ "" && !strIn "favicon" (lowerStr src) then
            let abs := make_absolute_url websiteUrl src
            if !is_likely_hero_image abs then some abs else none
          else none
        | none => none
      match step4 with
      | some u => some u
      | none =>
        step5Loop websiteUrl (findAll (fun n => tagIs "img" n && attrPresent "src" n) doc)

/-- beautifulsoup.py _extract_logo_from_metadata (lines 324-376).  The
JSON-LD parse of the first application/ld+json script (lines 350-371) is a
JSON-collaborator concern; jsonLdLogo is the logo string it would extract,
if any. -/
def extract_logo_from_metadata (websiteUrl : String) (doc : HtmlNode)
    (jsonLdLogo : Option String) : Option String :=
  let ogStep :=
    match findFirst (fun n => tagIs "meta" n && attrGet n.nodeAttrs "property" = some "og:image") doc with
    | some n =>
      match attrGet n.nodeAttrs "content" with
      | some c =>
        if c ≠ "" && !is_likely_hero_image c && !strIn "favicon" (lowerStr c) then
          some (pyUrljoin websiteUrl c)
        else none
      | none => none
    | none => none
  match ogStep with
  | some u => some u
  | none =>
    let twStep :=
      match findFirst (fun n => tagIs "meta" n && attrGet n.nodeAttrs "name" = some "twitter:image") doc with
      | some n =>
        match attrGet n.nodeAttrs "content" with
        | some c =>
          if c ≠ "" && !is_likely_hero_image c && !strIn "favicon" (lowerStr c) then
            some (pyUrljoin websiteUrl c)
          else none
        | none => none
      | none => none
    match twStep with
    | some u => some u
    | none =>
      match jsonLdLogo with
      | some logo =>
        if logo ≠ "" && !is_likely_hero_image logo && !strIn "favicon" (lowerStr logo) then
          some (pyUrljoin websiteUrl logo)
        else none
      | none => none

/-! ### beautifulsoup.py _find_potential_logos (lines 378-633) -/

/-- A ranked logo candidate, mirroring the dictionary built at
beautifulsoup.py:543-554 (keys url, alt, class, id, parent_class,
parent_id, is_likely_logo, priority, width, height; the last two keys are
absent for CSS/JSON-LD candidates). -/
structure PCandidate where
  url : String
  alt : String
  imgClass : String
  idAttr : String
  parentClass : String
  parentId : String
  isLikelyLogo : Bool
  priority : Int
  widthAttr : Option String
  heightAttr : Option String
deriving Repr, DecidableEq

/-- Logo keywords (beautifulsoup.py:397). -/
def logo_keywords : List String := ["logo", "brand", "header", "site-icon", "site-logo"]

/-- The priority accumulation of beautifulsoup.py:511-536: +15 header/nav
ancestry, +10/+8/+7/+6 keyword hits, +5 .svg else +3 .png, +12 anchor to
the site root.  The declared width/height attributes are recorded on the
candidate but never scored. -/
def img_priority (inHeaderOrNav isLogoInUrl isLogoInAlt isLogoInClass isLogoInParent : Bool)
    (absUrl : String) (anchorToRoot : Bool) : Int :=
  let priority : Int := 0
  let priority := if inHeaderOrNav then priority + 15 else priority
  let priority := if isLogoInUrl then priority + 10 else priority
  let priority := if isLogoInAlt then priority + 8 else priority
  let priority := if isLogoInClass then priority + 7 else priority
  let priority := if isLogoInParent then priority + 6 else priority
  let priority :=
    if pyEndsWith (lowerStr absUrl) ".svg" then priority + 5
    else if pyEndsWith (lowerStr absUrl) ".png" then priority + 3
    else priority
  if anchorToRoot then priority + 12 else priority

/-- First truthy non-favicon lazy-loading attribute
(beautifulsoup.py:428-431). -/
def firstLazy (attrs : List (String × String)) : List String → Option String
  | [] => none
  | a :: rest =>
    let v := attrGet attrs a
    if truthy v && !strIn "favicon" (lowerStr (v.getD "")) then v
    else firstLazy attrs rest

/-- The srcset scan (beautifulsoup.py:441-472): the last non-favicon part
with a positive width descriptor wins, else the first non-favicon part. -/
def srcsetLoop : List String → Option String → Option String
  | [], highest => highest
  | part :: rest, highest =>
    let part := pyStrip part
    if part = "" then srcsetLoop rest highest
    else
      let url_parts := pySplit part ' '
      let url := pyStrip (url_parts.headD "")
      if strIn "favicon" (lowerStr url) then srcsetLoop rest highest
      else
        let width :=
          if url_parts.length ≥ 2 then
            let width_str := pyStrip ((url_parts.drop 1).headD "")
            if pyEndsWith width_str "w" then (pyInt (pyDropLast width_str)).getD 0 else 0
          else 0
        if highest.isNone || width > 0 then srcsetLoop rest (some url)
        else srcsetLoop rest highest

/-- Processing of one img element (beautifulsoup.py:400-554): resolve the
effective source (src, then nitro/lazy attributes, then srcset), skip
favicon/hero URLs, compute the keyword and ancestry signals and the
priority.  Lines 407-419 compute a header_priority local that the source
never reads; it has no counterpart here. -/
def processImg (websiteUrl : String) (e : ImgEntry) : Option PCandidate :=
  let src0 := attrGet e.attrs "src"
  if truthy src0 && strIn "favicon" (lowerStr (src0.getD "")) then none
  else
    let src1 : Option String :=
      if !truthy src0 then
        let nitro := attrGet e.attrs "nitro-lazy-src"
        if truthy nitro && !strIn "favicon" (lowerStr (nitro.getD "")) then nitro
        else firstLazy e.attrs ["data-src", "data-original", "data-lazy-src", "data-fallback-src"]
      else src0
    if !truthy src1 then none
    else
      let src := src1.getD ""
      let srcset :=
        if truthy (attrGet e.attrs "srcset") then attrGet e.attrs "srcset"
        else attrGet e.attrs "nitro-lazy-srcset"
      let highest := if truthy srcset then srcsetLoop (pySplit (srcset.getD "") ',') none else none
      let src := if truthy highest then highest.getD "" else src
      let src :=
        if pyStartsWith src "https://data:" || pyStartsWith src "data:" then fix_data_uri src
        else src
      let abs_url := make_absolute_url websiteUrl src
      if strIn "favicon" (lowerStr abs_url) || is_likely_hero_image abs_url then none
      else
        let alt_text := lowerStr ((attrGet e.attrs "alt").getD "")
        let img_class := if classList e.attrs ≠ [] then lowerStr (joinClasses e.attrs) else ""
        let img_id := lowerStr ((attrGet e.attrs "id").getD "")
        let parent := e.ancestors.head?
        let parent_class :=
          match parent with
          | some p => if classList p.attrs ≠ [] then lowerStr (joinClasses p.attrs) else ""
          | none => ""
        let parent_id :=
          match parent with
          | some p => lowerStr ((attrGet p.attrs "id").getD "")
          | none => ""
        let is_logo_in_url := anyIn logo_keywords (lowerStr abs_url)
        let is_logo_in_alt := anyIn ["logo", "brand"] alt_text
        let is_logo_in_class := anyIn logo_keywords img_class
        let is_logo_in_parent := anyIn logo_keywords parent_class
        let in_header_or_nav := e.ancestors.any (fun p =>
          p.tag = "header" || p.tag = "nav" ||
          (classList p.attrs ≠ [] && (classList p.attrs).any (fun cls =>
            ["header", "navbar", "nav", "topbar"].contains (lowerStr cls))))
        let anchorToRoot :=
          match parent with
          | some p => p.tag = "a" &&
              (attrGet p.attrs "href" = some "/" || attrGet p.attrs "href" = some "#" ||
               attrGet p.attrs "href" = some websiteUrl)
          | none => false
        let priority := img_priority in_header_or_nav is_logo_in_url is_logo_in_alt
          is_logo_in_class is_logo_in_parent abs_url anchorToRoot
        let is_likely_logo := is_logo_in_url || is_logo_in_alt || is_logo_in_class ||
          is_logo_in_parent || in_header_or_nav ||
          (match parent with
           | some p => p.tag = "a" && attrGet p.attrs "href" = some "/"
           | none => false)
        some ⟨abs_url, alt_text, img_class, img_id, parent_class, parent_id,
          is_likely_logo, priority, attrGet e.attrs "width", attrGet e.attrs "height"⟩

/-- Descending stable order on candidate priority, as used by
sorted(key=priority, reverse=True) at beautifulsoup.py:627. -/
def pOrder (a b : PCandidate) : Prop := b.priority ≤ a.priority

instance : DecidableRel pOrder := fun a b =>
  inferInstanceAs (Decidable (b.priority ≤ a.priority))

instance : IsTotal PCandidate pOrder :=
  ⟨fun a b => Int.le_total b.priority a.priority⟩

instance : IsTrans PCandidate pOrder :=
  ⟨fun _ _ _ hab hbc => le_trans hbc hab⟩

/-- beautifulsoup.py _find_potential_logos (lines 378-633).  The CSS
background-image harvest (lines 556-579, fixed priority 5) and JSON-LD
harvest (lines 581-621, fixed priority 9) parse inline CSS and JSON through
collaborators; extra carries the candidates they would append, in source
order after the img-derived candidates.  The result is favicon-filtered,
stably sorted by descending priority, and truncated to the top 10
(lines 623-630). -/
def find_potential_logos (websiteUrl : String) (doc : HtmlNode)
    (extra : List PCandidate) : List PCandidate :=
  let images := (imgEntries [] doc).filterMap (processImg websiteUrl) ++ extra
  let filtered_images := images.filter (fun i => !strIn "favicon" (lowerStr i.url))
  let sorted_images := List.insertionSort pOrder filtered_images
  sorted_images.take 10

/-! ### beautifulsoup.py _perform_extraction (lines 28-109) -/

/-- The candidate filter of _perform_extraction (beautifulsoup.py:67-84):
drop nitro placeholders, hero images, favicons, icons-not-logos and
negative-priority candidates. -/
def performFilter (l : PCandidate) : Bool :=
  !(strIn "nitro-empty-id" l.url && strIn "base64" l.url) &&
  !is_likely_hero_image l.url &&
  !strIn "favicon" (lowerStr l.url) &&
  !is_likely_icon_not_logo l.url &&
  !(l.priority < 0)

/-- First filtered candidate that is a valid non-hero image URL
(beautifulsoup.py:89-93). -/
def firstValidCandidate (probe : String → Bool) : List PCandidate → Option String
  | [] => none
  | l :: rest =>
    if is_valid_image_url probe l.url && !is_likely_hero_image l.url then some l.url
    else firstValidCandidate probe rest

/-- beautifulsoup.py _perform_extraction (lines 28-109): header short-cut,
then the ranked candidates, then metadata; errors and the empty outcome
collapse to None. -/
def perform_extraction (websiteUrl : String) (doc : HtmlNode)
    (extra : List PCandidate) (jsonLdLogo : Option String)
    (probe : String → Bool) : Option String :=
  let header_result := find_header_logo websiteUrl doc
  if header_result = some TEXT_BASED_LOGO then some TEXT_BASED_LOGO
  else
    let headerStep :=
      match header_result with
      | some h =>
        if h ≠ "" && is_valid_image_url probe h then
          if !is_likely_hero_image h && !strIn "favicon" (lowerStr h) then some h
          else none
        else none
      | none => none
    match headerStep with
    | some u => some u
    | none =>
      let potential_logos := find_potential_logos websiteUrl doc extra
      let filtered_logos := potential_logos.filter performFilter
      match firstValidCandidate probe filtered_logos with
      | some u => some u
      | none =>
        match extract_logo_from_metadata websiteUrl doc jsonLdLogo with
        | some m =>
          if m ≠ "" && is_valid_image_url probe m && !is_likely_hero_image m &&
              !strIn "favicon" (lowerStr m) then some m
          else none
        | none => none

/-! ### Specification-side models -/

/-- The Candidate Ranking Engine scoring formula as the specification states
it (spec §4.2 step 3 and claim C4): the same eight signals as img_priority
plus a −5 penalty when the declared width and height attributes both parse
to at most 32.  Defined from the specification text, to be compared with
img_priority. -/
def spec_priority (inHeaderOrNav isLogoInUrl isLogoInAlt isLogoInClass isLogoInParent : Bool)
    (absUrl : String) (anchorToRoot : Bool) (widthAttr heightAttr : Option String) : Int :=
  (if inHeaderOrNav then 15 else 0) + (if isLogoInUrl then 10 else 0) +
  (if isLogoInAlt then 8 else 0) + (if isLogoInClass then 7 else 0) +
  (if isLogoInParent then 6 else 0) +
  (if pyEndsWith (lowerStr absUrl) ".svg" then 5
   else if pyEndsWith (lowerStr absUrl) ".png" then 3 else 0) +
  (if anchorToRoot then 12 else 0) +
  (match widthAttr.bind pyInt, heightAttr.bind pyInt with
   | some w, some h => if w ≤ 32 && h ≤ 32 then -5 else 0
   | _, _ => 0)

/-- SVG validity as the specification states it for the corruption check
(claim C6): the byte content contains both an opening and a closing svg
tag.  Defined from the specification text, to be compared with
is_corrupted_image; it coincides with the separate process_logo_image check
(image.py:484-494). -/
def spec_svg_valid (content : String) : Bool :=
  strIn "<svg" content && strIn "</svg>" content

/-- Mean-absolute-difference similarity of two solid colours as the
specification states it (claim C5): exact integer differences, no 8-bit
wraparound.  Defined from the specification text, to be compared with
compare_logos. -/
def spec_solid_similarity (p q : Pix) : Q :=
  let d := fun a b => (max a b - min a b : Nat)
  Q.sub (Q.ofNat 1)
    (Q.div (Q.div (Q.ofNat (d p.r q.r + d p.g q.g + d p.b q.b)) (Q.ofNat 3)) (Q.ofNat 255))

/-! ### Concrete inputs used by the theorems -/

/-- A probe that never reaches the network (fail-closed default). -/
def probeF : String → Bool := fun _ => false

/-- The Python value flow from _perform_extraction into extract_logo: a
string or None (the Google extractor returns a list instead). -/
def toPerform : Option String → PerformResult
  | some s => PerformResult.strR s
  | none => PerformResult.noneR

/-- Website URL of the end-to-end scenarios. -/
def acmeUrl : String := "https://acme-corp.com"

/-- The claim C3 document: a header whose only content is a logo-classed
homepage anchor with text and no image. -/
def acmeDoc : HtmlNode :=
  docRoot [HtmlNode.elem "html" []
    [HtmlNode.elem "body" []
      [HtmlNode.elem "header" []
        [HtmlNode.elem "a" [("class", "logo-link"), ("href", "/")]
          [HtmlNode.text "Acme Corp"]]]]]

/-- A document whose only image is favicon-sized (declared 16×16) with a
logo-keyword URL, outside any header. -/
def smallImgDoc : HtmlNode :=
  docRoot [HtmlNode.elem "html" []
    [HtmlNode.elem "body" []
      [HtmlNode.elem "img" [("src", "/acme-logo.png"), ("width", "16"), ("height", "16")] []]]]

/-- The candidate the Candidate Ranking Engine produces for smallImgDoc. -/
def smallImgCand : PCandidate :=
  ⟨"https://acme-corp.com/acme-logo.png", "", "", "", "", "", true, 13, some "16", some "16"⟩

/-- An SVG logo file (pixels unused: SVG paths short-circuit comparison). -/
def svgFile : ImageFile := ⟨"logo.svg", solidImg 300 300 PixMode.rgba ⟨10, 20, 30, 255⟩⟩

/-- A 300×300 RGBA PNG of the same logo, with used transparency. -/
def pngFile : ImageFile := ⟨"logo.png", solidImg 300 300 PixMode.rgba ⟨10, 20, 30, 200⟩⟩

/-- The SVG candidate, externally sourced. -/
def svgSel : SelCandidate := ⟨"logo.svg", "google", 0, 0, "", false⟩

/-- The PNG candidate from the website: 300×300 RGBA with transparency. -/
def pngSel : SelCandidate := ⟨"logo.png", "website", 300, 300, "RGBA", true⟩

/-- A solid white 16×16 RGB PNG. -/
def whiteFile : ImageFile := ⟨"white.png", solidImg 16 16 PixMode.rgb ⟨255, 255, 255, 255⟩⟩

/-- A solid black 300×300 RGB PNG. -/
def blackFile : ImageFile := ⟨"black.png", solidImg 300 300 PixMode.rgb ⟨0, 0, 0, 255⟩⟩

/-- The white file as a website-sourced candidate. -/
def whiteSel : SelCandidate := ⟨"white.png", "website", 16, 16, "RGB", false⟩

/-- The black file as an image-search-sourced candidate. -/
def blackSel : SelCandidate := ⟨"black.png", "imageSearch", 300, 300, "RGB", false⟩

/-- A solid red 16×16 RGB PNG. -/
def redFile : ImageFile := ⟨"red.png", solidImg 16 16 PixMode.rgb ⟨255, 0, 0, 255⟩⟩

/-- A solid blue 16×16 RGB PNG. -/
def blueFile : ImageFile := ⟨"blue.png", solidImg 16 16 PixMode.rgb ⟨0, 0, 255, 255⟩⟩

/-- A readable 5×5 raster image: below the 10-pixel comparison floor. -/
def tinyFile : ImageFile := ⟨"tiny.png", solidImg 5 5 PixMode.rgb ⟨10, 20, 30, 255⟩⟩

/-- A fully transparent 16×16 RGBA image. -/
def clearFile : ImageFile := ⟨"clear.png", solidImg 16 16 PixMode.rgba ⟨0, 0, 0, 0⟩⟩

/-- An opaque 16×16 RGBA image (witness input). -/
def opaqueFile : ImageFile := ⟨"opaque.png", solidImg 16 16 PixMode.rgba ⟨1, 2, 3, 255⟩⟩

/-- An .svg file whose content is only an XML declaration: no svg tags. -/
def xmlOnlySvgFile : DiskFile :=
  ⟨"logo.svg", some "<?xml version=1.0 encoding=utf-8?>", false, false, false⟩

/-- An .svg file with proper opening and closing tags (witness input). -/
def svgOkFile : DiskFile := ⟨"ok.svg", some "<svg></svg>", false, false, false⟩

/-- A favicon URL with a valid extension and no hero or icon token. -/
def faviconUrl : String := "https://example.com/favicon.png"

/-- A cache store holding one unparseable record. -/
def corruptStore : Store := [("https://ex.com", RawRecord.corrupt)]

/-! ## Theorems -/

/-- Writing a record and reading the same key back. -/
theorem storeGet_storePut (s : Store) (k : String) (v : RawRecord) :
    storeGet (storePut s k v) k = some v := by
  induction s with
  | nil => simp [storePut, storeGet]
  | cons hd tl ih =>
    by_cases h : hd.1 = k
    · simp [storePut, storeGet, h]
    · simp [storePut, storeGet, h, ih]

/-- Summing a pointwise-equal function gives the same value. -/
theorem sumPix_congr {w h : Nat} {f g : Nat → Nat → Nat}
    (hfg : ∀ x y, x < w → y < h → f x y = g x y) :
    sumPix w h f = sumPix w h g := by
  unfold sumPix
  refine Finset.sum_congr rfl fun y hy => Finset.sum_congr rfl fun x hx => ?_
  exact hfg x y (Finset.mem_range.mp hx) (Finset.mem_range.mp hy)

/-- Summing a constant over the grid. -/
theorem sumPix_const (w h c : Nat) : sumPix w h (fun _ _ => c) = w * h * c := by
  unfold sumPix
  simp [Finset.sum_const, Finset.card_range, Nat.mul_assoc, Nat.mul_comm, Nat.mul_left_comm]

/-- A grid sum with one positive entry is positive. -/
theorem sumPix_pos {w h : Nat} {f : Nat → Nat → Nat} (x0 y0 : Nat)
    (hx : x0 < w) (hy : y0 < h) (hf : 0 < f x0 y0) : 0 < sumPix w h f := by
  unfold sumPix
  refine Finset.sum_pos' (fun i _ => Finset.sum_nonneg fun j _ => Nat.zero_le _) ?_
  refine ⟨y0, Finset.mem_range.mpr hy, ?_⟩
  exact Finset.sum_pos' (fun j _ => Nat.zero_le _) ⟨x0, Finset.mem_range.mpr hx, hf⟩

/-- Wrapped byte self-difference vanishes. -/
theorem u8sub_self (a : Nat) : u8sub a a = 0 := by
  unfold u8sub
  omega

/-- C1.  The claim states that when formats differ, the better format wins
outright whenever similarity ≥ 0.6, so an SVG always beats a PNG of the
same logo.  The code contradicts its own tests
(test_logo_comparison.test_select_best_logo_svg_priority) and its caller
(api/routes.py:253): select_best_logo computes only the composite score, and
here the PNG scores 59 against the SVG's 30, so the PNG wins although the
formats differ, is_better_format prefers svg, and compare_logos reports
similarity 1.0 ≥ 0.6. -/
theorem c1_svg_priority_ignored :
    is_better_format "svg" "png" = true ∧
    compare_logos svgFile pngFile = some (Q.ofNat 1) ∧
    select_best_logo [svgSel, pngSel] = some "logo.png" ∧
    select_best_logo [svgSel, pngSel] ≠ some "logo.svg" := by
  refine ⟨by decide, by decide, by decide, by decide⟩

/-- C2.  The claim states that on low similarity (< 0.6) the website-tagged
candidate always wins and the low similarity is reported.  The code
contradicts its own test
(test_logo_comparison.test_select_best_logo_different_logos):
select_best_logo never computes a similarity and returns only a path; with
the white website logo (score 35) against the larger black image-search
logo (score 39), the image-search candidate wins even though compare_logos
scores the pair 0.0 < 0.6. -/
theorem c2_website_preference_ignored :
    (compare_logos whiteFile blackFile).map (fun q => Q.blt q (Q.frac 3 5)) = some true ∧
    select_best_logo [whiteSel, blackSel] = some "black.png" ∧
    select_best_logo [whiteSel, blackSel] ≠ some "white.png" := by
  refine ⟨by decide, by decide, by decide⟩

/-- C3.  The claim states that a header whose only content is a logo-classed
homepage anchor with text and no image yields the TextBased terminal
outcome.  The source contradicts its own docstring (beautifulsoup.py:116
announces the TEXT_BASED_LOGO return) and the dead handler at
beautifulsoup.py:42-45: no branch of _find_header_logo returns the
sentinel, so on this document extraction falls through every step and the
orchestrator ends in NotFound, never TextBased. -/
theorem c3_text_based_never_produced :
    find_header_logo acmeUrl acmeDoc = none ∧
    perform_extraction acmeUrl acmeDoc [] none probeF = none ∧
    extract_logo 0 [] acmeUrl false
      (toPerform (perform_extraction acmeUrl acmeDoc [] none probeF)) probeF =
      (ExtractOutcome.notFound, [], true) ∧
    (extract_logo 0 [] acmeUrl false
      (toPerform (perform_extraction acmeUrl acmeDoc [] none probeF)) probeF).1 ≠
      ExtractOutcome.textBased := by
  refine ⟨by decide, by decide, by decide, by decide⟩

/-- C4 counterexample.  The claim includes a −5 signal when the declared
width and height are both ≤ 32px.  On a document whose only image declares
16×16 and carries a logo keyword in its URL, the engine emits priority 13
(+10 URL keyword, +3 .png); the claimed sum is 13 − 5 = 8, so the claimed
scoring disagrees with the code. -/
theorem c4_no_small_dimension_penalty :
    find_potential_logos acmeUrl smallImgDoc [] = [smallImgCand] ∧
    smallImgCand.priority = 13 ∧
    spec_priority false true false false false smallImgCand.url false
      smallImgCand.widthAttr smallImgCand.heightAttr = 8 ∧
    smallImgCand.priority ≠ spec_priority false true false false false smallImgCand.url false
      smallImgCand.widthAttr smallImgCand.heightAttr := by
  refine ⟨by decide, by decide, by decide, by decide⟩

/-- C5.  The claim states that compareSimilarity of solid red vs solid blue
is below 0.5, computed with exact integer arithmetic.  The code contradicts
its own test (test_logo_comparison.test_compare_logos_different):
np.abs(arr1 − arr2) on uint8 wraps modulo 256, so the blue-channel
difference 0 − 255 becomes 1 and the result is 509/765 ≈ 0.665 ≥ 0.5,
while the exact per-channel mean the specification describes gives
1/3 < 0.5. -/
theorem c5_uint8_wraparound :
    (compare_logos redFile blueFile).map
      (fun q => Q.beqv q (Q.frac 509 765) && !Q.blt q (Q.frac 1 2)) = some true ∧
    Q.Eqv (spec_solid_similarity ⟨255, 0, 0, 255⟩ ⟨0, 0, 255, 255⟩) (Q.frac 1 3) ∧
    Q.Lt (spec_solid_similarity ⟨255, 0, 0, 255⟩ ⟨0, 0, 255, 255⟩) (Q.frac 1 2) := by
  refine ⟨by decide, by decide, by decide⟩

/-- C6 counterexample.  The claim states the corruption check accepts an
.svg file exactly when the content holds both an opening and a closing svg
tag.  A file holding only an XML declaration has neither tag, yet
is_corrupted_image accepts it (its test is `<svg` in the first kilobyte OR
`<?xml` in the first kilobyte) and check_logo_quality reports it valid. -/
theorem c6_svg_check_is_disjunctive :
    is_corrupted_image xmlOnlySvgFile = false ∧
    (check_logo_quality xmlOnlySvgFile).1 = true ∧
    spec_svg_valid "<?xml version=1.0 encoding=utf-8?>" = false := by
  refine ⟨by decide, by decide, by decide⟩

/-- C7 counterexample.  The claim states the favicon test is an absolute
disqualifier applied in the pipeline before the hero, icon and
valid-image-URL tests.  The final acceptance filter of extract_logo
(base.py:98) runs only those three tests and no favicon test: a favicon URL
returned by an extractor is accepted, cached and downloaded as the final
logo. -/
theorem c7_final_gate_accepts_favicon :
    strIn "favicon" (lowerStr faviconUrl) = true ∧
    extract_accepts probeF faviconUrl = true ∧
    (extract_logo 0 [] "https://example.com" false (PerformResult.strR faviconUrl) probeF).1 =
      ExtractOutcome.downloaded faviconUrl := by
  refine ⟨by decide, by decide, by decide⟩

/-- C9 counterexample.  The claim states compare_logos(p, p) = 1.0 for every
readable image.  A readable 5×5 raster is below the 10-pixel floor and
yields None, and a fully transparent RGBA image compared with itself has no
commonly visible pixel and yields 0.0. -/
theorem c9_not_always_one :
    compare_logos tinyFile tinyFile = none ∧
    compare_logos clearFile clearFile = some (Q.ofNat 0) := by
  refine ⟨by decide, by decide⟩

/-- C10 counterexample.  The claim states a corrupt cache record is deleted
from the store.  get_cached_result only returns None (the except branch
prints and falls through), and a full extract_logo run over a store holding
one corrupt record leaves that record in place. -/
theorem c10_corrupt_entry_not_deleted :
    get_cached_result corruptStore "https://ex.com" = none ∧
    extract_logo 0 corruptStore "https://ex.com" false PerformResult.noneR probeF =
      (ExtractOutcome.notFound, corruptStore, true) ∧
    storeGet (extract_logo 0 corruptStore "https://ex.com" false
      PerformResult.noneR probeF).2.1 "https://ex.com" = some RawRecord.corrupt := by
  refine ⟨by decide, by decide, by decide⟩

/-- C8.  Caching a text-based result and re-querying the cache yields a
record with text_based_logo true and no logo_url, and a subsequent
extract_logo call short-circuits to the TextBased outcome without invoking
_perform_extraction (the invoked flag is false), whatever extraction would
have returned. -/
theorem c8_text_based_round_trip (store : Store) (url method : String) (now : Int)
    (pr : PerformResult) (probe : String → Bool) :
    get_cached_result (cache_text_based_logo store url now method) url =
      some ⟨url, none, true, now, method⟩ ∧
    extract_logo now (cache_text_based_logo store url now method) url false pr probe =
      (ExtractOutcome.textBased, cache_text_based_logo store url now method, false) := by
  have hget : get_cached_result (cache_text_based_logo store url now method) url =
      some ⟨url, none, true, now, method⟩ := by
    unfold get_cached_result cache_text_based_logo
    rw [storeGet_storePut]
  refine ⟨hget, ?_⟩
  unfold extract_logo
  rw [hget]
  rfl

/-- C10 amended claim: a corrupt cache record is treated as a cache miss and
extraction proceeds exactly as the post-cache phase, but the corrupt entry
is not deleted — when extraction finds nothing the store is returned
unchanged, corrupt record included. -/
theorem c10_amended_corrupt_is_miss (store : Store) (url : String) (now : Int)
    (pr : PerformResult) (probe : String → Bool)
    (h : storeGet store url = some RawRecord.corrupt) :
    get_cached_result store url = none ∧
    extract_logo now store url false pr probe = extraction_phase now store url pr probe ∧
    (extract_logo now store url false PerformResult.noneR probe).2.1 = store := by
  have hget : get_cached_result store url = none := by
    unfold get_cached_result
    rw [h]
  have hmain : ∀ pr2 : PerformResult, extract_logo now store url false pr2 probe =
      extraction_phase now store url pr2 probe := by
    intro pr2
    unfold extract_logo
    rw [hget]
    rfl
  refine ⟨hget, hmain pr, ?_⟩
  rw [hmain PerformResult.noneR]
  rfl

/-- C10 amended claim witness at a concrete corrupt store. -/
theorem c10_amended_corrupt_is_miss_witness :
    get_cached_result corruptStore "https://ex.com" = none ∧
    extract_logo 0 corruptStore "https://ex.com" false PerformResult.noneR probeF =
      extraction_phase 0 corruptStore "https://ex.com" PerformResult.noneR probeF ∧
    (extract_logo 0 corruptStore "https://ex.com" false PerformResult.noneR probeF).2.1 =
      corruptStore :=
  c10_amended_corrupt_is_miss corruptStore "https://ex.com" 0 PerformResult.noneR probeF
    (by decide)

set_option maxHeartbeats 2000000 in
/-- C4 amended claim: the engine scores each surviving image candidate as
the sum of the eight genuine signals (+15 header/nav ancestry, +10 logo
keyword in URL, +8 in alt, +7 in class, +6 in parent class, +5 .svg else +3
.png, +12 homepage anchor) with no small-dimension penalty, and returns the
candidates sorted by priority descending, truncated to at most 10. -/
theorem c4_amended_scoring_and_ranking :
    (∀ (ih lu la lc lp : Bool) (url : String) (ar : Bool),
      img_priority ih lu la lc lp url ar =
        (if ih then 15 else 0) + (if lu then 10 else 0) + (if la then 8 else 0) +
        (if lc then 7 else 0) + (if lp then 6 else 0) +
        (if pyEndsWith (lowerStr url) ".svg" then 5
         else if pyEndsWith (lowerStr url) ".png" then 3 else 0) +
        (if ar then 12 else 0)) ∧
    (∀ (websiteUrl : String) (doc : HtmlNode) (extra : List PCandidate),
      List.Sorted pOrder (find_potential_logos websiteUrl doc extra) ∧
      (find_potential_logos websiteUrl doc extra).length ≤ 10) := by
  constructor
  · intro ih lu la lc lp url ar
    unfold img_priority
    split_ifs <;> decide
  · intro websiteUrl doc extra
    simp only [find_potential_logos]
    constructor
    · exact List.Pairwise.sublist (List.take_sublist _ _)
        (List.sorted_insertionSort pOrder _)
    · exact List.length_take_le _ _

/-- C7 amended claim: inside the BeautifulSoup candidate scan the favicon
test is indeed an absolute disqualifier — no URL containing "favicon"
(case-folded) ever appears among the returned candidates; the final
acceptance filter of extract_logo, however, does not retest for favicon
(the counterexample shows it accepting one). -/
theorem c7_amended_scan_rejects_favicon (websiteUrl : String) (doc : HtmlNode)
    (extra : List PCandidate) (cand : PCandidate)
    (h : cand ∈ find_potential_logos websiteUrl doc extra) :
    strIn "favicon" (lowerStr cand.url) = false := by
  unfold find_potential_logos at h
  have h2 := List.mem_of_mem_take h
  have h3 := (List.Perm.mem_iff (List.perm_insertionSort pOrder _)).mp h2
  have h4 := List.mem_filter.mp h3
  simpa using h4.2

/-- C7 amended claim witness: a concrete candidate produced by the scan has
no favicon substring. -/
theorem c7_amended_scan_rejects_favicon_witness :
    smallImgCand ∈ find_potential_logos acmeUrl smallImgDoc [] ∧
    strIn "favicon" (lowerStr smallImgCand.url) = false :=
  ⟨by decide, c7_amended_scan_rejects_favicon acmeUrl smallImgDoc [] smallImgCand (by decide)⟩

/-- C6 amended claim: for a nonempty .svg file, is_corrupted_image accepts
exactly when the first kilobyte contains an opening `<svg` tag or an
`<?xml` declaration; check_logo_quality for .svg paths runs only that
corruption check, whatever the whiteness and size probes say; the two-tag
condition the specification describes is the separate process_logo_image
check. -/
theorem c6_amended_svg_validity (f : DiskFile) (c : String)
    (hc : f.content = some c) (hne : c ≠ "")
    (hsvg : pyEndsWith (lowerStr f.path) ".svg" = true) :
    (is_corrupted_image f = false ↔
      (strIn "<svg" (pyTake c 1024) || strIn "<?xml" (pyTake c 1024)) = true) ∧
    (check_logo_quality f).1 = !is_corrupted_image f ∧
    process_logo_image_svg_ok c = spec_svg_valid c := by
  have hcor : is_corrupted_image f =
      !(strIn "<svg" (pyTake c 1024) || strIn "<?xml" (pyTake c 1024)) := by
    unfold is_corrupted_image
    rw [hc]
    simp [hne, hsvg]
  refine ⟨?_, ?_, rfl⟩
  · rw [hcor]
    cases strIn "<svg" (pyTake c 1024) || strIn "<?xml" (pyTake c 1024) <;> simp
  · unfold check_logo_quality
    rw [if_pos hsvg]
    cases hx : is_corrupted_image f <;> simp [hx]

/-- C6 amended claim witness at a well-formed SVG file. -/
theorem c6_amended_svg_validity_witness :
    (is_corrupted_image svgOkFile = false ↔
      (strIn "<svg" (pyTake "<svg></svg>" 1024) ||
       strIn "<?xml" (pyTake "<svg></svg>" 1024)) = true) ∧
    (check_logo_quality svgOkFile).1 = !is_corrupted_image svgOkFile ∧
    process_logo_image_svg_ok "<svg></svg>" = spec_svg_valid "<svg></svg>" :=
  c6_amended_svg_validity svgOkFile "<svg></svg>" rfl (by decide) (by decide)

/-- A similarity value built from a zero error sum equals one. -/
theorem beqv_one_zero (k : Nat) :
    Q.beqv (Q.sub (Q.ofNat 1) (Q.qmin (Q.div (Q.div (Q.ofNat 0) (Q.ofNat k)) (Q.ofNat 255)) (Q.ofNat 1))) (Q.ofNat 1) = true := by
  simp only [Q.beqv, Q.sub, Q.qmin, Q.div, Q.ble, Q.ofNat]
  split_ifs <;> push_cast at * <;> simp at * <;> omega

/-- C9 amended claim: compare_logos(p, p) equals 1.0 whenever p is an SVG
path, or a readable raster at least 10 pixels in each dimension which, when
it carries an alpha channel, has at least one visible pixel (alpha > 10)
in the resized frame; the counterexample shows the two excluded cases
return None and 0.0. -/
theorem c9_amended_identical_compare (f : ImageFile)
    (h : isSvgPath f.path = true ∨
      (10 ≤ f.img.width ∧ 10 ≤ f.img.height ∧
        (f.img.mode = PixMode.rgba →
          ∃ x y, x < min f.img.width 300 ∧ y < min f.img.height 300 ∧
            10 < (resizePx f.img (min f.img.width 300) (min f.img.height 300) x y).a))) :
    (compare_logos f f).map (fun q => Q.beqv q (Q.ofNat 1)) = some true := by
  by_cases hsvg : isSvgPath f.path = true
  · unfold compare_logos
    simp [hsvg, Q.beqv, Q.ofNat]
  · obtain ⟨hw, hh, halpha⟩ := h.resolve_left hsvg
    have hs : isSvgPath f.path = false := by simpa using hsvg
    have htw : ¬ (min f.img.width 300 < 10) := Nat.not_lt.mpr (le_min hw (by omega))
    have hth : ¬ (min f.img.height 300 < 10) := Nat.not_lt.mpr (le_min hh (by omega))
    unfold compare_logos
    rw [hs]
    simp only [Bool.or_self, Bool.false_eq_true, if_false, eq_self_iff_true, if_true,
      Nat.min_self]
    rw [if_neg (by simp [htw, hth])]
    cases hm : f.img.mode with
    | rgb =>
      have htot : sumPix (min f.img.width 300) (min f.img.height 300) (fun x y =>
          u8sub (resizePx f.img (min f.img.width 300) (min f.img.height 300) x y).r
              (resizePx f.img (min f.img.width 300) (min f.img.height 300) x y).r +
            u8sub (resizePx f.img (min f.img.width 300) (min f.img.height 300) x y).g
              (resizePx f.img (min f.img.width 300) (min f.img.height 300) x y).g +
            u8sub (resizePx f.img (min f.img.width 300) (min f.img.height 300) x y).b
              (resizePx f.img (min f.img.width 300) (min f.img.height 300) x y).b) = 0 := by
        rw [sumPix_congr (g := fun _ _ => 0) (fun x y _ _ => by simp [u8sub_self]),
          sumPix_const]
        simp
      rw [htot]
      exact congrArg some (beqv_one_zero _)
    | rgba =>
      obtain ⟨x0, y0, hx0, hy0, ha⟩ := halpha hm
      have hone : (0 : Nat) < (fun x y =>
          if (decide ((resizePx f.img (min f.img.width 300) (min f.img.height 300) x y).a > 10) &&
              decide ((resizePx f.img (min f.img.width 300) (min f.img.height 300) x y).a > 10)) = true
          then 1 else 0) x0 y0 := by
        simp only []
        rw [if_pos (by simp [ha])]
        omega
      have hcnt : sumPix (min f.img.width 300) (min f.img.height 300) (fun x y =>
          if (decide ((resizePx f.img (min f.img.width 300) (min f.img.height 300) x y).a > 10) &&
              decide ((resizePx f.img (min f.img.width 300) (min f.img.height 300) x y).a > 10)) = true
          then 1 else 0) ≠ 0 :=
        Nat.pos_iff_ne_zero.mp (sumPix_pos x0 y0 hx0 hy0 hone)
      rw [if_neg hcnt]
      have htot : sumPix (min f.img.width 300) (min f.img.height 300) (fun x y =>
          if (decide ((resizePx f.img (min f.img.width 300) (min f.img.height 300) x y).a > 10) &&
              decide ((resizePx f.img (min f.img.width 300) (min f.img.height 300) x y).a > 10)) = true
          then
            u8sub (resizePx f.img (min f.img.width 300) (min f.img.height 300) x y).r
                (resizePx f.img (min f.img.width 300) (min f.img.height 300) x y).r +
              u8sub (resizePx f.img (min f.img.width 300) (min f.img.height 300) x y).g
                (resizePx f.img (min f.img.width 300) (min f.img.height 300) x y).g +
              u8sub (resizePx f.img (min f.img.width 300) (min f.img.height 300) x y).b
                (resizePx f.img (min f.img.width 300) (min f.img.height 300) x y).b
          else 0) = 0 := by
        rw [sumPix_congr (g := fun _ _ => 0) (fun x y _ _ => by simp [u8sub_self]),
          sumPix_const]
        simp
      rw [htot]
      exact congrArg some (beqv_one_zero _)

/-- C9 amended claim witness at an opaque 16×16 RGBA raster. -/
theorem c9_amended_identical_compare_witness :
    (compare_logos opaqueFile opaqueFile).map (fun q => Q.beqv q (Q.ofNat 1)) = some true :=
  c9_amended_identical_compare opaqueFile
    (Or.inr ⟨by decide, by decide, fun _ => ⟨0, 0, by decide, by decide, by decide⟩⟩)

end LogoScraper
